import Mathlib

/-!
Shallow embedding of `deploy.sh` (the EvoAgentX deployment sequencer).

The script is a linear sequence of side effects: argument resolution,
tool-presence checks, one-time secrets-file materialization, an in-place
`sed` rewrite of the port mapping in `docker-compose.yml`, backend build
and start commands, a single readiness check over `docker-compose ps`
output, a report block, and a best-effort `curl` health probe.

We model a run as a pure function from an environment (tool presence,
file contents, backend exit codes, `ps` output, probe outcome) and the
two optional positional arguments to a trace of observable events plus
the process exit status.
-/

/-- Observable effects of one run of the script, in order of occurrence. -/
inductive Event where
  | echo (line : String)
  | copyFile (src dst : String)
  | readPrompt
  | writeFile (path : String) (content : List Char)
  | cmd (c : String)
  | sleep (seconds : Nat)
  | curl (url : String)
deriving DecidableEq

/-- The ambient state the script observes: which tools exist, whether the
secrets file `.env` exists, the text of `docker-compose.yml`, the exit codes
reported by the backend build/start commands, the lines printed by
`docker-compose ps`, and whether the final `curl` probe succeeds. -/
structure Env where
  hasDocker : Bool
  hasDockerCompose : Bool
  envFileExists : Bool
  composeContent : List Char
  buildExit : Nat
  startExit : Nat
  psOutput : List String
  curlOk : Bool
deriving DecidableEq

/-- `DEFAULT_PORT=88888` (line 9 of the script). -/
def DEFAULT_PORT : String := "88888"

/-- `DEFAULT_DOMAIN=...` (line 10 of the script). -/
def DEFAULT_DOMAIN : String := "evoagentx.evoagentx.naranja.lucienfc.eu.org"

/-- Bash `${arg:-dflt}`: the default is used when the positional argument is
unset or empty (lines 13-14 of the script). -/
def resolveVar (arg : Option String) (dflt : String) : String :=
  match arg with
  | none => dflt
  | some s => if s = "" then dflt else s

/-- Does `pat` occur at the very start of the text? -/
def startsWithL (pat text : List Char) : Bool :=
  match pat, text with
  | [], _ => true
  | _, [] => false
  | p :: ps, c :: cs => (p == c) && startsWithL ps cs

/-- Does `pat` occur as a contiguous substring of the text?
(`grep` membership, used for the `grep -q "Up"` readiness check.) -/
def occursL (pat : List Char) : List Char → Bool
  | [] => startsWithL pat []
  | c :: rest => startsWithL pat (c :: rest) || occursL pat rest

/-- `scanClean pat xs rest = true` when a left-to-right scan of `xs ++ rest`
never matches `pat` at a position strictly inside `xs`. -/
def scanClean (pat : List Char) : List Char → List Char → Bool
  | [], _ => true
  | c :: xs, rest => !startsWithL pat (c :: (xs ++ rest)) && scanClean pat xs rest

/-- Fuelled left-to-right global substitution: at each position, if `pat`
matches, emit `rep` and skip past the match (non-overlapping, like
`sed s/pat/rep/g` for a literal pattern); otherwise keep the character. -/
def gsubFuel (pat rep : List Char) : Nat → List Char → List Char
  | _, [] => []
  | 0, t => t
  | fuel + 1, c :: rest =>
    if startsWithL pat (c :: rest) && !pat.isEmpty then
      rep ++ gsubFuel pat rep fuel (List.drop (pat.length - 1) rest)
    else
      c :: gsubFuel pat rep fuel rest

/-- Global substitution of a literal pattern, the semantics of
`sed "s/pat/rep/g"` on the whole file text. -/
def gsub (pat rep t : List Char) : List Char := gsubFuel pat rep t.length t

/-- The literal pattern of the `sed` command on line 42: `8000:8000`. -/
def portPattern : List Char := "8000:8000".data

/-- The fixed tail of the `sed` replacement on line 42: `:8000`. -/
def portReplSuffix : List Char := ":8000".data

/-- The descriptor text after `sed -i.bak "s/8000:8000/${PORT}:8000/g"`. -/
def rewriteOutput (port : String) (compose : List Char) : List Char :=
  gsub portPattern (port.data ++ portReplSuffix) compose

/-- The three opening `echo` lines (lines 16-18). -/
def introTrace (port domain : String) : List Event :=
  [Event.echo "🚀 Deploying EvoAgentX...",
   Event.echo ("📌 Port: " ++ port),
   Event.echo ("🌐 Domain: " ++ domain)]

/-- Secrets materialization (lines 31-38): if `.env` is absent, copy the
template and block on an interactive prompt; otherwise do nothing. -/
def secretsTrace (envFileExists : Bool) : List Event :=
  if envFileExists then []
  else
    [Event.echo "📄 Creating .env file from .env.example...",
     Event.copyFile ".env.example" ".env",
     Event.echo "⚠️  Please update the .env file with your API keys before continuing.",
     Event.echo "   Required keys: OPENAI_API_KEY, ANTHROPIC_API_KEY, VOYAGE_API_KEY",
     Event.readPrompt]

/-- Descriptor rewrite (lines 40-42): `sed -i.bak` keeps a backup with the
original text and writes the substituted text in place. -/
def rewriteTrace (port : String) (compose : List Char) : List Event :=
  [Event.echo ("⚙️  Configuring application to run on port " ++ (port ++ "...")),
   Event.writeFile "docker-compose.yml.bak" compose,
   Event.writeFile "docker-compose.yml" (rewriteOutput port compose)]

/-- The API access URL built on lines 73 and 98: `http://localhost:${PORT}/`. -/
def apiUrl (port : String) : String := "http://localhost:" ++ port ++ "/"

/-- The 47-character separator banner echoed by the report block. -/
def bannerLine : String := String.mk (List.replicate 47 (Char.ofNat 61))

/-- The report block (lines 63-93): access URLs and operational hints. -/
def reportTrace (port : String) : List Event :=
  [Event.echo "",
   Event.echo bannerLine,
   Event.echo "🎉 EvoAgentX Deployment Complete!",
   Event.echo bannerLine,
   Event.echo "",
   Event.echo "📊 Service Status:",
   Event.cmd "docker-compose ps",
   Event.echo "",
   Event.echo "🌐 Access URLs:",
   Event.echo ("   - API: " ++ apiUrl port),
   Event.echo ("   - API Documentation: http://localhost:" ++ port ++ "/docs"),
   Event.echo ("   - ReDoc: http://localhost:" ++ port ++ "/redoc"),
   Event.echo ("   - Health Check: " ++ apiUrl port),
   Event.echo "",
   Event.echo "🔧 Management Commands:",
   Event.echo "   - View logs: docker-compose logs -f",
   Event.echo "   - Stop services: docker-compose down",
   Event.echo "   - Restart services: docker-compose restart",
   Event.echo "   - Rebuild and restart: docker-compose up -d --build",
   Event.echo "",
   Event.echo "⚠️  Important Notes:",
   Event.echo "   1. The application uses MongoDB and Redis. Data is persisted in Docker volumes.",
   Event.echo "   2. Default MongoDB credentials: admin/admin123",
   Event.echo "   3. Application database: evoagentx",
   Event.echo "   4. Update the .env file with your actual API keys for full functionality.",
   Event.echo "",
   Event.echo "📝 For domain setup with HTTPS (optional):",
   Event.echo "   Edit the nginx.conf file and set up SSL certificates in the ssl/ directory.",
   Event.echo "   Then uncomment the nginx service in docker-compose.yml.",
   Event.echo bannerLine]

/-- The best-effort health probe (lines 95-98): `curl -f ... || echo warning`.
A probe failure only adds a warning line; it never changes the exit status. -/
def probeTrace (port : String) (curlOk : Bool) : List Event :=
  [Event.echo "",
   Event.echo "🩺 Testing API health...",
   Event.curl (apiUrl port)] ++
  (if curlOk then [] else [Event.echo "⚠️  API health check failed (may still be starting up)"])

/-- The pattern of the readiness check on line 56: `grep -q "Up"`. -/
def upPattern : List Char := "Up".data

/-- Readiness classification: some line of `docker-compose ps` output
contains the substring `Up`. -/
def anyUp (psOutput : List String) : Bool :=
  psOutput.any (fun l => occursL upPattern l.data)

/-- Everything the script does after the three intro `echo` lines, given the
already-resolved port: tool checks (lines 20-29, `exit 1` on failure),
secrets materialization, descriptor rewrite, build (`set -e` propagates a
non-zero exit), start, settle sleep, one-shot readiness check (`exit 1` and
stop if no service is `Up`), report block, and health probe. Returns the
emitted events and the process exit status. -/
def runSteps (env : Env) (port : String) : List Event × Nat :=
  if env.hasDocker = false then
    ([Event.echo "❌ Docker is not installed. Please install Docker first."], 1)
  else if env.hasDockerCompose = false then
    ([Event.echo "❌ Docker Compose is not installed. Please install Docker Compose first."], 1)
  else
    let t1 := secretsTrace env.envFileExists ++ rewriteTrace port env.composeContent ++
      [Event.echo "🔨 Building Docker images...", Event.cmd "docker-compose build"]
    if env.buildExit ≠ 0 then (t1, env.buildExit)
    else
      let t2 := t1 ++ [Event.echo "🚀 Starting containers...", Event.cmd "docker-compose up -d"]
      if env.startExit ≠ 0 then (t2, env.startExit)
      else
        let t3 := t2 ++
          [Event.echo "⏳ Waiting for services to be ready...", Event.sleep 10,
           Event.echo "🔍 Checking service status...", Event.cmd "docker-compose ps"]
        if anyUp env.psOutput then
          (t3 ++ Event.echo "✅ All services are running!" ::
            (reportTrace port ++ probeTrace port env.curlOk), 0)
        else
          (t3 ++ [Event.echo "❌ Some services failed to start. Check logs with: docker-compose logs"], 1)

/-- One full run of `deploy.sh [port] [domain]`: resolve the configuration
from the two optional positional arguments (lines 13-14), print the intro
lines, then execute the step sequence. -/
def run (env : Env) (arg1 arg2 : Option String) : List Event × Nat :=
  let port := resolveVar arg1 DEFAULT_PORT
  let domain := resolveVar arg2 DEFAULT_DOMAIN
  let r := runSteps env port
  (introTrace port domain ++ r.1, r.2)

/-! ### Lemmas about the substitution semantics -/

lemma gsubFuel_nil (pat rep : List Char) (f : Nat) : gsubFuel pat rep f [] = [] := by
  cases f <;> rfl

lemma gsubFuel_congr (pat rep : List Char) :
    ∀ (f f' : Nat) (t : List Char), t.length ≤ f → t.length ≤ f' →
      gsubFuel pat rep f t = gsubFuel pat rep f' t := by
  intro f
  induction f with
  | zero =>
    intro f' t ht _
    have h0 : t = [] := List.eq_nil_of_length_eq_zero (Nat.le_zero.mp ht)
    subst h0
    simp [gsubFuel_nil]
  | succ fs ih =>
    intro f' t ht ht'
    cases t with
    | nil => simp [gsubFuel_nil]
    | cons c rest =>
      cases f' with
      | zero =>
        exact absurd ht' (by simp)
      | succ fs' =>
        simp only [gsubFuel]
        have hlen : rest.length ≤ fs := by simpa using ht
        have hlen' : rest.length ≤ fs' := by simpa using ht'
        by_cases h : (startsWithL pat (c :: rest) && !pat.isEmpty) = true
        · rw [if_pos h, if_pos h]
          congr 1
          exact ih fs' (List.drop (pat.length - 1) rest)
            (le_trans (by simp) hlen)
            (le_trans (by simp) hlen')
        · rw [if_neg h, if_neg h]
          congr 1
          exact ih fs' rest hlen hlen'

lemma gsub_nil (pat rep : List Char) : gsub pat rep [] = [] := rfl

lemma gsub_cons_nomatch (pat rep : List Char) (c : Char) (t : List Char)
    (h : startsWithL pat (c :: t) = false) :
    gsub pat rep (c :: t) = c :: gsub pat rep t := by
  show gsubFuel pat rep (t.length + 1) (c :: t) = c :: gsubFuel pat rep t.length t
  simp only [gsubFuel, h, Bool.false_and, if_neg (Bool.false_ne_true)]

lemma startsWithL_append_self (pat t : List Char) : startsWithL pat (pat ++ t) = true := by
  induction pat with
  | nil => simp [startsWithL]
  | cons a as ih => simp [startsWithL, ih]

lemma gsub_match (pat rep : List Char) (hp : pat ≠ []) (rest : List Char) :
    gsub pat rep (pat ++ rest) = rep ++ gsub pat rep rest := by
  cases pat with
  | nil => exact absurd rfl hp
  | cons q qs =>
    show gsubFuel ((q :: qs)) rep ((qs ++ rest).length + 1) (q :: (qs ++ rest)) = _
    simp only [gsubFuel]
    rw [if_pos]
    · have hdrop : List.drop ((q :: qs).length - 1) (qs ++ rest) = rest := by
        simp [List.drop_left]
      rw [hdrop]
      congr 1
      exact gsubFuel_congr _ _ _ _ rest (by simp) (le_refl _)
    · have hsw : startsWithL (q :: qs) (q :: (qs ++ rest)) = true := by
        have := startsWithL_append_self (q :: qs) rest
        simpa using this
      simp [hsw, List.isEmpty]

lemma gsub_skip (pat rep : List Char) :
    ∀ (a rest : List Char), scanClean pat a rest = true →
      gsub pat rep (a ++ rest) = a ++ gsub pat rep rest := by
  intro a
  induction a with
  | nil => intro rest _; simp
  | cons c xs ih =>
    intro rest h
    simp only [scanClean, Bool.and_eq_true, Bool.not_eq_true'] at h
    obtain ⟨h1, h2⟩ := h
    have : (c :: xs) ++ rest = c :: (xs ++ rest) := rfl
    rw [this, gsub_cons_nomatch pat rep c (xs ++ rest) h1, ih rest h2]
    rfl

lemma occursL_false_scanClean (pat : List Char) :
    ∀ t : List Char, occursL pat t = false → scanClean pat t [] = true := by
  intro t
  induction t with
  | nil => intro _; rfl
  | cons c rest ih =>
    intro h
    simp only [occursL, Bool.or_eq_false_iff] at h
    simp only [scanClean, List.append_nil, h.1, Bool.not_false, Bool.true_and]
    exact ih h.2

lemma gsub_of_not_occurs (pat rep t : List Char) (h : occursL pat t = false) :
    gsub pat rep t = t := by
  have := gsub_skip pat rep t [] (occursL_false_scanClean pat t h)
  simpa [gsub_nil] using this

/-! ### Lemmas about the run structure -/

/-- Events that are neither a file copy, nor a file write, nor the
interactive prompt. -/
def benign (e : Event) : Bool :=
  match e with
  | Event.copyFile _ _ => false
  | Event.readPrompt => false
  | Event.writeFile _ _ => false
  | _ => true

/-- Is the event the `cp` of the secrets template? -/
def isCopyEvent (e : Event) : Bool :=
  match e with
  | Event.copyFile _ _ => true
  | _ => false

lemma benign_spec (e : Event) (h : benign e = true) :
    (∀ s d, e ≠ Event.copyFile s d) ∧ (∀ p c, e ≠ Event.writeFile p c) ∧ e ≠ Event.readPrompt := by
  cases e <;> simp_all [benign]

lemma benign_not_copy (e : Event) (h : benign e = true) : isCopyEvent e = false := by
  cases e <;> simp_all [benign, isCopyEvent]

/-- When both tools are present, a run's post-intro trace is the secrets
step, then the rewrite step, then the build echo/command, then a tail of
benign events (echoes, backend commands, the sleep, the probe). -/
lemma runSteps_shape (env : Env) (port : String)
    (hd : env.hasDocker = true) (hc : env.hasDockerCompose = true) :
    ∃ rest, (runSteps env port).1 =
      secretsTrace env.envFileExists ++ (rewriteTrace port env.composeContent ++
        ([Event.echo "🔨 Building Docker images...", Event.cmd "docker-compose build"] ++ rest)) ∧
      rest.all benign = true := by
  simp only [runSteps, hd, hc]
  by_cases hb : env.buildExit ≠ 0
  · exact ⟨[], by simp [hb]⟩
  · by_cases hs : env.startExit ≠ 0
    · exact ⟨[Event.echo "🚀 Starting containers...", Event.cmd "docker-compose up -d"],
        by simp [hb, hs, benign]⟩
    · by_cases hup : anyUp env.psOutput
      · refine ⟨[Event.echo "🚀 Starting containers...", Event.cmd "docker-compose up -d",
          Event.echo "⏳ Waiting for services to be ready...", Event.sleep 10,
          Event.echo "🔍 Checking service status...", Event.cmd "docker-compose ps",
          Event.echo "✅ All services are running!"] ++
          (reportTrace port ++ probeTrace port env.curlOk), ?_, ?_⟩
        · simp [hb, hs, hup]
        · cases env.curlOk <;> simp [reportTrace, probeTrace, benign]
      · refine ⟨[Event.echo "🚀 Starting containers...", Event.cmd "docker-compose up -d",
          Event.echo "⏳ Waiting for services to be ready...", Event.sleep 10,
          Event.echo "🔍 Checking service status...", Event.cmd "docker-compose ps",
          Event.echo "❌ Some services failed to start. Check logs with: docker-compose logs"], ?_, ?_⟩
        · simp [hb, hs, hup]
        · simp [benign]

/-! ### String inequality helpers -/

lemma string_data_append (p x : String) : (p ++ x).data = p.data ++ x.data := rfl

/-- Two appended strings differ whenever neither left part is a character
prefix of the other. -/
lemma string_append_ne (p q x y : String)
    (h1 : startsWithL p.data q.data = false) (h2 : startsWithL q.data p.data = false) :
    p ++ x ≠ q ++ y := by
  intro hcontra
  have hdata : p.data ++ x.data = q.data ++ y.data := by
    have h3 : (p ++ x).data = (q ++ y).data := congrArg String.data hcontra
    simpa [string_data_append] using h3
  rcases List.append_eq_append_iff.mp hdata with ⟨a', ha, _⟩ | ⟨c', hc2, _⟩
  · rw [ha, startsWithL_append_self] at h1
    exact Bool.noConfusion h1
  · rw [hc2, startsWithL_append_self] at h2
    exact Bool.noConfusion h2

/-- An appended string differs from a plain string that does not start
with its left part (and whose data the left part does not start with). -/
lemma string_append_ne_lit (p x q : String)
    (h1 : startsWithL p.data q.data = false) :
    p ++ x ≠ q := by
  intro hcontra
  have hdata : p.data ++ x.data = q.data := by
    have h3 : (p ++ x).data = q.data := congrArg String.data hcontra
    simpa [string_data_append] using h3
  rw [← hdata, startsWithL_append_self] at h1
  exact Bool.noConfusion h1

/-! ### Claim theorems -/

/-- C2: the resolved configuration uses the supplied positional override when
present (and non-empty, matching bash `${n:-default}` semantics), else the
fixed defaults (port `88888`, the fixed hostname), and the resolved pair is a
function of the two arguments alone: the first three echoed lines of every
run display exactly this pair, whatever the rest of the environment. -/
theorem c2_config_resolution (a1 a2 : Option String)
    (h1 : a1 ≠ some "") (h2 : a2 ≠ some "") :
    resolveVar a1 DEFAULT_PORT = a1.getD DEFAULT_PORT ∧
    resolveVar a2 DEFAULT_DOMAIN = a2.getD DEFAULT_DOMAIN ∧
    DEFAULT_PORT = "88888" ∧
    ∀ env : Env, ((run env a1 a2).1).take 3 =
      introTrace (a1.getD DEFAULT_PORT) (a2.getD DEFAULT_DOMAIN) := by
  have hA : resolveVar a1 DEFAULT_PORT = a1.getD DEFAULT_PORT := by
    cases a1 with
    | none => rfl
    | some s =>
      have hs : s ≠ "" := by intro h0; exact h1 (by rw [h0])
      simp [resolveVar, hs]
  have hB : resolveVar a2 DEFAULT_DOMAIN = a2.getD DEFAULT_DOMAIN := by
    cases a2 with
    | none => rfl
    | some s =>
      have hs : s ≠ "" := by intro h0; exact h2 (by rw [h0])
      simp [resolveVar, hs]
  refine ⟨hA, hB, rfl, ?_⟩
  intro env
  show (introTrace (resolveVar a1 DEFAULT_PORT) (resolveVar a2 DEFAULT_DOMAIN) ++
    (runSteps env (resolveVar a1 DEFAULT_PORT)).1).take 3 = _
  rw [hA, hB]
  rfl

/-- Witness for C2 at the concrete pair `(some "9090", none)`. -/
theorem c2_config_resolution_witness :
    resolveVar (some "9090") DEFAULT_PORT = (some "9090").getD DEFAULT_PORT ∧
    resolveVar none DEFAULT_DOMAIN = (none : Option String).getD DEFAULT_DOMAIN ∧
    DEFAULT_PORT = "88888" ∧
    ∀ env : Env, ((run env (some "9090") none).1).take 3 =
      introTrace ((some "9090").getD DEFAULT_PORT)
        ((none : Option String).getD DEFAULT_DOMAIN) :=
  c2_config_resolution (some "9090") none (by decide) (by decide)

/-- C4: when the orchestration tooling is absent (either `docker` or
`docker-compose` is missing), the run exits with status 1 and its whole
trace consists of `echo` lines only: no copy, no file write, no prompt, no
backend command, no sleep, no probe. -/
theorem c4_tool_missing (env : Env) (a1 a2 : Option String)
    (h : env.hasDocker = false ∨ env.hasDockerCompose = false) :
    (run env a1 a2).2 = 1 ∧ ∀ e ∈ (run env a1 a2).1, ∃ s, e = Event.echo s := by
  rcases h with h | h
  · constructor
    · simp [run, runSteps, h]
    · intro e he
      simp [run, runSteps, h, introTrace] at he
      rcases he with h1 | h1 | h1 | h1 <;> exact ⟨_, h1⟩
  · cases hd : env.hasDocker
    · constructor
      · simp [run, runSteps, hd]
      · intro e he
        simp [run, runSteps, hd, introTrace] at he
        rcases he with h1 | h1 | h1 | h1 <;> exact ⟨_, h1⟩
    · constructor
      · simp [run, runSteps, hd, h]
      · intro e he
        simp [run, runSteps, hd, h, introTrace] at he
        rcases he with h1 | h1 | h1 | h1 <;> exact ⟨_, h1⟩

/-- An environment whose only defect is a missing `docker` binary. -/
def envNoDocker : Env := ⟨false, true, true, "8000:8000".data, 0, 0, [], true⟩

/-- Witness for C4 at a concrete environment with `docker` absent. -/
theorem c4_tool_missing_witness :
    (run envNoDocker none none).2 = 1 ∧
    ∀ e ∈ (run envNoDocker none none).1, ∃ s, e = Event.echo s :=
  c4_tool_missing envNoDocker none none (Or.inl rfl)

/-- C9: two runs that differ only in the domain argument have the same exit
status and traces that agree everywhere except at index 2, which is the
single `echo` line displaying the resolved domain. In particular the same
files are written, the same backend commands run, and every access URL line
is identical across the two runs. -/
theorem c9_domain_noninterference (env : Env) (a1 d1 d2 : Option String) :
    (run env a1 d1).2 = (run env a1 d2).2 ∧
    ((run env a1 d1).1).eraseIdx 2 = ((run env a1 d2).1).eraseIdx 2 ∧
    ((run env a1 d1).1).get? 2 =
      some (Event.echo ("🌐 Domain: " ++ resolveVar d1 DEFAULT_DOMAIN)) :=
  ⟨rfl, rfl, rfl⟩

/-- The environment of the C5 scenario: everything healthy, descriptor
holding the default `8000:8000` mapping. -/
def env5 : Env :=
  ⟨true, true, true, "    ports:\n      - \"8000:8000\"\n".data, 0, 0,
   ["evoagentx-api   Up   0.0.0.0:9090->8000/tcp"], true⟩

/-- C5: on input `(port = 9090, domain defaulted)` the descriptor's
`8000:8000` mapping becomes `9090:8000` in the rewritten file, the reported
API access line carries exactly `http://localhost:9090/`, the health probe
targets that same URL, and the run succeeds. -/
theorem c5_port_9090_scenario :
    Event.writeFile "docker-compose.yml" "    ports:\n      - \"9090:8000\"\n".data
        ∈ (run env5 (some "9090") none).1 ∧
    Event.echo ("   - API: " ++ apiUrl "9090") ∈ (run env5 (some "9090") none).1 ∧
    apiUrl "9090" = "http://localhost:9090/" ∧
    Event.curl "http://localhost:9090/" ∈ (run env5 (some "9090") none).1 ∧
    (run env5 (some "9090") none).2 = 0 := by
  decide

lemma benign_cases (e : Event) (h : benign e = true) :
    (∃ s, e = Event.echo s) ∨ (∃ c2, e = Event.cmd c2) ∨
    (∃ n, e = Event.sleep n) ∨ (∃ u, e = Event.curl u) := by
  cases e <;> simp_all [benign]

/-- Inventory of every event a run can emit: echoes, backend commands, the
sleep, the probe, the two descriptor writes, and (only when the secrets file
is absent) the template copy and the interactive prompt. -/
lemma mem_run_cases (env : Env) (a1 a2 : Option String) (e : Event)
    (he : e ∈ (run env a1 a2).1) :
    (∃ s, e = Event.echo s) ∨ (∃ c2, e = Event.cmd c2) ∨
    (∃ n, e = Event.sleep n) ∨ (∃ u, e = Event.curl u) ∨
    e = Event.writeFile "docker-compose.yml.bak" env.composeContent ∨
    e = Event.writeFile "docker-compose.yml"
      (rewriteOutput (resolveVar a1 DEFAULT_PORT) env.composeContent) ∨
    (env.envFileExists = false ∧
      (e = Event.copyFile ".env.example" ".env" ∨ e = Event.readPrompt)) := by
  have he' : e ∈ introTrace (resolveVar a1 DEFAULT_PORT) (resolveVar a2 DEFAULT_DOMAIN) ++
      (runSteps env (resolveVar a1 DEFAULT_PORT)).1 := he
  rw [List.mem_append] at he'
  rcases he' with he' | he'
  · simp only [introTrace, List.mem_cons, List.not_mem_nil, or_false] at he'
    rcases he' with h | h | h <;> exact Or.inl ⟨_, h⟩
  · by_cases hd : env.hasDocker = true
    · by_cases hc : env.hasDockerCompose = true
      · obtain ⟨rest, hshape, hben⟩ := runSteps_shape env (resolveVar a1 DEFAULT_PORT) hd hc
        rw [hshape] at he'
        simp only [List.mem_append] at he'
        rcases he' with he' | he' | he' | he'
        · cases hef : env.envFileExists
          · rw [hef] at he'
            simp only [secretsTrace, if_neg Bool.false_ne_true, List.mem_cons,
              List.not_mem_nil, or_false] at he'
            rcases he' with h | h | h | h | h
            · exact Or.inl ⟨_, h⟩
            · exact Or.inr (Or.inr (Or.inr (Or.inr (Or.inr (Or.inr ⟨rfl, Or.inl h⟩)))))
            · exact Or.inl ⟨_, h⟩
            · exact Or.inl ⟨_, h⟩
            · exact Or.inr (Or.inr (Or.inr (Or.inr (Or.inr (Or.inr ⟨rfl, Or.inr h⟩)))))
          · rw [hef] at he'
            simp [secretsTrace] at he'
        · simp only [rewriteTrace, List.mem_cons, List.not_mem_nil, or_false] at he'
          rcases he' with h | h | h
          · exact Or.inl ⟨_, h⟩
          · exact Or.inr (Or.inr (Or.inr (Or.inr (Or.inl h))))
          · exact Or.inr (Or.inr (Or.inr (Or.inr (Or.inr (Or.inl h)))))
        · simp only [List.mem_cons, List.not_mem_nil, or_false] at he'
          rcases he' with h | h
          · exact Or.inl ⟨_, h⟩
          · exact Or.inr (Or.inl ⟨_, h⟩)
        · have hb := (List.all_eq_true.mp hben) e he'
          rcases benign_cases e hb with h | h | h | h
          · exact Or.inl h
          · exact Or.inr (Or.inl h)
          · exact Or.inr (Or.inr (Or.inl h))
          · exact Or.inr (Or.inr (Or.inr (Or.inl h)))
      · have hc' : env.hasDockerCompose = false := by
          cases h0 : env.hasDockerCompose
          · rfl
          · exact absurd h0 hc
        simp only [runSteps, hd, hc'] at he'
        simp at he'
        exact Or.inl ⟨_, he'⟩
    · have hd' : env.hasDocker = false := by
        cases h0 : env.hasDocker
        · rfl
        · exact absurd h0 hd
      simp only [runSteps, hd'] at he'
      simp at he'
      exact Or.inl ⟨_, he'⟩

/-- C6: a run against an environment where the secrets file `.env` already
exists never copies the template and never writes to `.env`: the file's
contents are left untouched. -/
theorem c6_secrets_never_overwritten (env : Env) (a1 a2 : Option String)
    (h : env.envFileExists = true) :
    ∀ e ∈ (run env a1 a2).1,
      (∀ s d, e ≠ Event.copyFile s d) ∧ (∀ c, e ≠ Event.writeFile ".env" c) := by
  intro e he
  rcases mem_run_cases env a1 a2 e he with
    ⟨s, h1⟩ | ⟨c2, h1⟩ | ⟨n, h1⟩ | ⟨u, h1⟩ | h1 | h1 | ⟨hef, _⟩
  · subst h1; exact ⟨fun _ _ hx => Event.noConfusion hx, fun _ hx => Event.noConfusion hx⟩
  · subst h1; exact ⟨fun _ _ hx => Event.noConfusion hx, fun _ hx => Event.noConfusion hx⟩
  · subst h1; exact ⟨fun _ _ hx => Event.noConfusion hx, fun _ hx => Event.noConfusion hx⟩
  · subst h1; exact ⟨fun _ _ hx => Event.noConfusion hx, fun _ hx => Event.noConfusion hx⟩
  · subst h1
    refine ⟨fun _ _ hx => Event.noConfusion hx, fun c hx => ?_⟩
    injection hx with hpath _
    exact absurd hpath (by decide)
  · subst h1
    refine ⟨fun _ _ hx => Event.noConfusion hx, fun c hx => ?_⟩
    injection hx with hpath _
    exact absurd hpath (by decide)
  · rw [h] at hef
    exact Bool.noConfusion hef

/-- An all-healthy environment whose secrets file already exists. -/
def envExistingSecrets : Env :=
  ⟨true, true, true, "8000:8000".data, 0, 0, ["web Up"], true⟩

/-- Witness for C6 at a concrete environment with `.env` present,
instantiated at the backup-write event of that run's trace. -/
theorem c6_secrets_never_overwritten_witness :
    (∀ s d, Event.writeFile "docker-compose.yml.bak" "8000:8000".data ≠ Event.copyFile s d) ∧
    (∀ c, Event.writeFile "docker-compose.yml.bak" "8000:8000".data ≠
      Event.writeFile ".env" c) :=
  c6_secrets_never_overwritten envExistingSecrets none none rfl
    (Event.writeFile "docker-compose.yml.bak" "8000:8000".data) (by decide)

lemma countP_copy_of_benign (l : List Event) (h : l.all benign = true) :
    l.countP isCopyEvent = 0 := by
  rw [List.countP_eq_zero]
  intro e hel
  have hb := List.all_eq_true.mp h e hel
  simp [benign_not_copy e hb]

/-- An environment with the secrets file absent but `docker` missing too:
the run stops at the tool check and the template is never copied. -/
def envC7 : Env := ⟨false, true, false, "8000:8000".data, 0, 0, [], true⟩

/-- Counterexample to C7 as stated: here the secrets file is absent, yet the
run performs zero template copies and never reaches the interactive pause,
because the tool precondition check aborts the run first. -/
theorem c7_counterexample :
    envC7.envFileExists = false ∧
    ((run envC7 none none).1).countP isCopyEvent = 0 ∧
    Event.readPrompt ∉ (run envC7 none none).1 := by
  decide

/-- C7 (amended): in every run that passes the tool precondition checks and
finds the secrets file absent, exactly one template copy occurs, and it
occurs before the interactive confirmation pause. -/
theorem c7_amended (env : Env) (a1 a2 : Option String)
    (hd : env.hasDocker = true) (hc : env.hasDockerCompose = true)
    (he : env.envFileExists = false) :
    ((run env a1 a2).1).countP isCopyEvent = 1 ∧
    List.Sublist [Event.copyFile ".env.example" ".env", Event.readPrompt]
      (run env a1 a2).1 := by
  obtain ⟨rest, hshape, hben⟩ := runSteps_shape env (resolveVar a1 DEFAULT_PORT) hd hc
  have htrace : (run env a1 a2).1 =
      introTrace (resolveVar a1 DEFAULT_PORT) (resolveVar a2 DEFAULT_DOMAIN) ++
        (runSteps env (resolveVar a1 DEFAULT_PORT)).1 := rfl
  constructor
  · rw [htrace, hshape, he]
    simp only [List.countP_append]
    rw [countP_copy_of_benign rest hben]
    simp [introTrace, secretsTrace, rewriteTrace, List.countP_cons, isCopyEvent]
  · have h1 : List.Sublist [Event.copyFile ".env.example" ".env", Event.readPrompt]
        (secretsTrace false) := by
      simp only [secretsTrace, Bool.false_eq_true, if_false]
      refine List.Sublist.cons _ ?_
      refine List.Sublist.cons₂ _ ?_
      refine List.Sublist.cons _ ?_
      refine List.Sublist.cons _ ?_
      exact List.Sublist.refl _
    have h2 : List.Sublist (secretsTrace false)
        ((runSteps env (resolveVar a1 DEFAULT_PORT)).1) := by
      rw [hshape, he]
      exact List.sublist_append_left _ _
    have h3 : List.Sublist ((runSteps env (resolveVar a1 DEFAULT_PORT)).1)
        ((run env a1 a2).1) := by
      rw [htrace]
      exact List.sublist_append_right _ _
    exact (h1.trans h2).trans h3

/-- A healthy environment with the secrets file absent. -/
def envC7w : Env := ⟨true, true, false, "8000:8000".data, 0, 0, ["web Up"], true⟩

/-- Witness for the amended C7 at a concrete environment. -/
theorem c7_amended_witness :
    ((run envC7w none none).1).countP isCopyEvent = 1 ∧
    List.Sublist [Event.copyFile ".env.example" ".env", Event.readPrompt]
      (run envC7w none none).1 :=
  c7_amended envC7w none none rfl rfl rfl

/-- C8: a failing final health probe never changes the exit status — the
failing run's trace is exactly the succeeding run's trace plus one warning
line, and both runs exit with status 0. -/
theorem c8_probe_best_effort (env : Env) (a1 a2 : Option String)
    (hd : env.hasDocker = true) (hc : env.hasDockerCompose = true)
    (hb : env.buildExit = 0) (hs : env.startExit = 0)
    (hup : anyUp env.psOutput = true) :
    (run { env with curlOk := false } a1 a2).2 = (run { env with curlOk := true } a1 a2).2 ∧
    (run { env with curlOk := true } a1 a2).2 = 0 ∧
    (run { env with curlOk := false } a1 a2).1 =
      (run { env with curlOk := true } a1 a2).1 ++
        [Event.echo "⚠️  API health check failed (may still be starting up)"] := by
  obtain ⟨d, c, ef, cc, b, s, ps, ck⟩ := env
  simp only at hd hc hb hs hup
  subst hd; subst hc; subst hb; subst hs
  refine ⟨?_, ?_, ?_⟩
  · simp [run, runSteps, hup]
  · simp [run, runSteps, hup]
  · simp [run, runSteps, hup, probeTrace]

/-- A healthy environment for the C8 witness. -/
def env8 : Env := ⟨true, true, true, "8000:8000".data, 0, 0, ["web Up"], true⟩

/-- Witness for C8 at a concrete environment. -/
theorem c8_probe_best_effort_witness :
    (run { env8 with curlOk := false } none none).2 =
      (run { env8 with curlOk := true } none none).2 ∧
    (run { env8 with curlOk := true } none none).2 = 0 ∧
    (run { env8 with curlOk := false } none none).1 =
      (run { env8 with curlOk := true } none none).1 ++
        [Event.echo "⚠️  API health check failed (may still be starting up)"] :=
  c8_probe_best_effort env8 none none rfl rfl rfl rfl (by decide)

/-- An environment whose descriptor lacks the default `8000:8000` mapping. -/
def envC3 : Env := ⟨true, true, true, "ports: 9999:9999".data, 0, 0, ["web Up"], true⟩

/-- Counterexample to C3 as stated: the descriptor does not contain the
expected `8000:8000` pattern, yet the run does not fail at the rewrite step —
it silently writes the unchanged text back and finishes with exit status 0. -/
theorem c3_counterexample :
    occursL portPattern envC3.composeContent = false ∧
    (run envC3 none none).2 = 0 ∧
    Event.writeFile "docker-compose.yml" envC3.composeContent ∈ (run envC3 none none).1 ∧
    Event.cmd "docker-compose build" ∈ (run envC3 none none).1 := by
  decide

/-- C3 (amended): when the expected default pattern is absent the rewrite
step is a silent no-op — the descriptor is written back unchanged, no error
is reported, and the run proceeds to the build step. -/
theorem c3_amended (env : Env) (a1 a2 : Option String)
    (hd : env.hasDocker = true) (hc : env.hasDockerCompose = true)
    (habs : occursL portPattern env.composeContent = false) :
    rewriteOutput (resolveVar a1 DEFAULT_PORT) env.composeContent = env.composeContent ∧
    Event.writeFile "docker-compose.yml" env.composeContent ∈ (run env a1 a2).1 ∧
    Event.cmd "docker-compose build" ∈ (run env a1 a2).1 := by
  have hid : rewriteOutput (resolveVar a1 DEFAULT_PORT) env.composeContent =
      env.composeContent := gsub_of_not_occurs _ _ _ habs
  obtain ⟨rest, hshape, _⟩ := runSteps_shape env (resolveVar a1 DEFAULT_PORT) hd hc
  have htrace : (run env a1 a2).1 =
      introTrace (resolveVar a1 DEFAULT_PORT) (resolveVar a2 DEFAULT_DOMAIN) ++
        (runSteps env (resolveVar a1 DEFAULT_PORT)).1 := rfl
  refine ⟨hid, ?_, ?_⟩
  · rw [htrace, hshape]
    simp [rewriteTrace, hid, List.mem_append]
  · rw [htrace, hshape]
    simp [List.mem_append]

/-- Witness for the amended C3 at a concrete pattern-free descriptor. -/
theorem c3_amended_witness :
    rewriteOutput (resolveVar none DEFAULT_PORT) envC3.composeContent = envC3.composeContent ∧
    Event.writeFile "docker-compose.yml" envC3.composeContent ∈ (run envC3 none none).1 ∧
    Event.cmd "docker-compose build" ∈ (run envC3 none none).1 :=
  c3_amended envC3 none none rfl rfl (by decide)

lemma gsub_two_occ (rep : List Char) (a b c : List Char)
    (h1 : scanClean portPattern a (portPattern ++ (b ++ (portPattern ++ c))) = true)
    (h2 : scanClean portPattern b (portPattern ++ c) = true)
    (h3 : scanClean portPattern c [] = true) :
    gsub portPattern rep (a ++ (portPattern ++ (b ++ (portPattern ++ c)))) =
      a ++ (rep ++ (b ++ (rep ++ c))) := by
  rw [gsub_skip portPattern rep a _ h1]
  rw [gsub_match portPattern rep (by decide) _]
  rw [gsub_skip portPattern rep b _ h2]
  rw [gsub_match portPattern rep (by decide) _]
  have hc3 : gsub portPattern rep c = c := by
    have h4 := gsub_skip portPattern rep c [] h3
    simpa [gsub_nil] using h4
  rw [hc3]

/-- C10: the rewrite substitutes every (left-to-right, non-overlapping)
occurrence of `8000:8000`, not only the first — here shown for a descriptor
with two occurrences separated by pattern-free text — and with no arguments
the resolved default port `88888` turns each `8000:8000` into `88888:8000`.
The digit hypothesis restricts to ports for which the `sed` replacement text
is literal. -/
theorem c10_global_rewrite (p : String) (a b c : List Char)
    (hdigits : p.data.all Char.isDigit = true)
    (h1 : scanClean portPattern a (portPattern ++ (b ++ (portPattern ++ c))) = true)
    (h2 : scanClean portPattern b (portPattern ++ c) = true)
    (h3 : scanClean portPattern c [] = true) :
    rewriteOutput p (a ++ (portPattern ++ (b ++ (portPattern ++ c)))) =
      a ++ ((p.data ++ portReplSuffix) ++ (b ++ ((p.data ++ portReplSuffix) ++ c))) ∧
    rewriteOutput (resolveVar none DEFAULT_PORT)
        (a ++ (portPattern ++ (b ++ (portPattern ++ c)))) =
      a ++ ("88888:8000".data ++ (b ++ ("88888:8000".data ++ c))) := by
  constructor
  · exact gsub_two_occ (p.data ++ portReplSuffix) a b c h1 h2 h3
  · have hres : resolveVar none DEFAULT_PORT = "88888" := rfl
    rw [hres]
    have h5 : rewriteOutput "88888" (a ++ (portPattern ++ (b ++ (portPattern ++ c)))) =
        a ++ (("88888".data ++ portReplSuffix) ++ (b ++ (("88888".data ++ portReplSuffix) ++ c))) :=
      gsub_two_occ ("88888".data ++ portReplSuffix) a b c h1 h2 h3
    rw [h5]
    have h88 : "88888".data ++ portReplSuffix = "88888:8000".data := by decide
    rw [h88]

/-- Witness for C10 on a descriptor with two occurrences of the pattern. -/
theorem c10_global_rewrite_witness :
    rewriteOutput "9090" ("A ".data ++ (portPattern ++ (" B ".data ++ (portPattern ++ " C".data)))) =
      "A ".data ++ (("9090".data ++ portReplSuffix) ++
        (" B ".data ++ (("9090".data ++ portReplSuffix) ++ " C".data))) ∧
    rewriteOutput (resolveVar none DEFAULT_PORT)
        ("A ".data ++ (portPattern ++ (" B ".data ++ (portPattern ++ " C".data)))) =
      "A ".data ++ ("88888:8000".data ++ (" B ".data ++ ("88888:8000".data ++ " C".data))) :=
  c10_global_rewrite "9090" "A ".data " B ".data " C".data
    (by decide) (by decide) (by decide) (by decide)

/-- A healthy environment whose `docker-compose ps` output reports no
service `Up`. -/
def envC1 : Env := ⟨true, true, true, "8000:8000".data, 0, 0, ["web Exit 1"], true⟩

/-- Counterexample to C1 as stated: with no service `Up`, the run exits with
status 1 but the access-URL line for the resolved port is never printed —
the run aborts before the report block. -/
theorem c1_counterexample :
    anyUp envC1.psOutput = false ∧
    (run envC1 none none).2 = 1 ∧
    Event.echo ("   - API: " ++ apiUrl "88888") ∉ (run envC1 none none).1 := by
  decide

/-- C1 (amended): whenever the readiness check finds no service `Up`, the
run exits with status 1 and stops immediately: the access-URL report line is
not printed and the health probe never runs. -/
theorem c1_amended (env : Env) (a1 a2 : Option String)
    (hd : env.hasDocker = true) (hc : env.hasDockerCompose = true)
    (hb : env.buildExit = 0) (hs : env.startExit = 0)
    (hup : anyUp env.psOutput = false) :
    (run env a1 a2).2 = 1 ∧
    Event.echo ("   - API: " ++ apiUrl (resolveVar a1 DEFAULT_PORT)) ∉ (run env a1 a2).1 ∧
    ∀ u, Event.curl u ∉ (run env a1 a2).1 := by
  obtain ⟨d, c, ef, cc, b, s, ps, ck⟩ := env
  simp only at hd hc hb hs hup
  subst hd
  subst hc
  subst hb
  subst hs
  refine ⟨by simp [run, runSteps, hup], ?_, ?_⟩
  · intro hmem
    have k1 : ("   - API: " ++ apiUrl (resolveVar a1 DEFAULT_PORT)) ≠
        "🚀 Deploying EvoAgentX..." :=
      string_append_ne_lit _ _ _ (by decide)
    have k2 : ("   - API: " ++ apiUrl (resolveVar a1 DEFAULT_PORT)) ≠
        "📌 Port: " ++ resolveVar a1 DEFAULT_PORT :=
      string_append_ne _ _ _ _ (by decide) (by decide)
    have k3 : ("   - API: " ++ apiUrl (resolveVar a1 DEFAULT_PORT)) ≠
        "🌐 Domain: " ++ resolveVar a2 DEFAULT_DOMAIN :=
      string_append_ne _ _ _ _ (by decide) (by decide)
    have k4 : ("   - API: " ++ apiUrl (resolveVar a1 DEFAULT_PORT)) ≠
        "📄 Creating .env file from .env.example..." :=
      string_append_ne_lit _ _ _ (by decide)
    have k5 : ("   - API: " ++ apiUrl (resolveVar a1 DEFAULT_PORT)) ≠
        "⚠️  Please update the .env file with your API keys before continuing." :=
      string_append_ne_lit _ _ _ (by decide)
    have k6 : ("   - API: " ++ apiUrl (resolveVar a1 DEFAULT_PORT)) ≠
        "   Required keys: OPENAI_API_KEY, ANTHROPIC_API_KEY, VOYAGE_API_KEY" :=
      string_append_ne_lit _ _ _ (by decide)
    have k7 : ("   - API: " ++ apiUrl (resolveVar a1 DEFAULT_PORT)) ≠
        "⚙️  Configuring application to run on port " ++ (resolveVar a1 DEFAULT_PORT ++ "...") :=
      string_append_ne _ _ _ _ (by decide) (by decide)
    have k8 : ("   - API: " ++ apiUrl (resolveVar a1 DEFAULT_PORT)) ≠
        "🔨 Building Docker images..." :=
      string_append_ne_lit _ _ _ (by decide)
    have k9 : ("   - API: " ++ apiUrl (resolveVar a1 DEFAULT_PORT)) ≠
        "🚀 Starting containers..." :=
      string_append_ne_lit _ _ _ (by decide)
    have k10 : ("   - API: " ++ apiUrl (resolveVar a1 DEFAULT_PORT)) ≠
        "⏳ Waiting for services to be ready..." :=
      string_append_ne_lit _ _ _ (by decide)
    have k11 : ("   - API: " ++ apiUrl (resolveVar a1 DEFAULT_PORT)) ≠
        "🔍 Checking service status..." :=
      string_append_ne_lit _ _ _ (by decide)
    have k12 : ("   - API: " ++ apiUrl (resolveVar a1 DEFAULT_PORT)) ≠
        "❌ Some services failed to start. Check logs with: docker-compose logs" :=
      string_append_ne_lit _ _ _ (by decide)
    cases ef <;>
      simp [run, runSteps, hup, introTrace, secretsTrace, rewriteTrace,
        k1, k2, k3, k4, k5, k6, k7, k8, k9, k10, k11, k12] at hmem
  · intro u hmem
    cases ef <;>
      simp [run, runSteps, hup, introTrace, secretsTrace, rewriteTrace] at hmem

/-- Witness for the amended C1 at a concrete not-ready environment. -/
theorem c1_amended_witness :
    (run envC1 none none).2 = 1 ∧
    Event.echo ("   - API: " ++ apiUrl (resolveVar none DEFAULT_PORT)) ∉ (run envC1 none none).1 ∧
    ∀ u, Event.curl u ∉ (run envC1 none none).1 :=
  c1_amended envC1 none none rfl rfl rfl rfl (by decide)
